import Mathlib

/-!
Shallow embedding of the pywallhaven library (pywallhaven/util.py,
pywallhaven/wallhaven.py, pywallhaven/exceptions.py) and verification of
the claims about it.

Python strings are modelled as Lean `String` (character classes of the
regular expressions are read at the ASCII level, matching the literal
classes in the patterns); Python machine behaviour that the code relies
on (`str()`, `urllib.parse.quote`, `str.zfill`, `str.strip`, the `in`
operator) is embedded directly below.  Exceptions are modelled by
`Except` with an error type carrying one constructor per Python
exception class used by the library.
-/

namespace Pywallhaven

/-- Python runtime values that can reach the library's dynamically typed
entry points: strings, ints, `None`, and lists. -/
inductive PyValue where
  | str (s : String)
  | int (n : Int)
  | noneV
  | list (l : List PyValue)
deriving BEq

/-- The exception classes raised by the library, each carrying its
message: `TypeError`, `KeyError`, `ValueError`, `AttributeError`,
`requests.exceptions.RequestException`,
`requests.exceptions.ConnectionError`,
`pywallhaven.exceptions.RateLimitError`,
`requests.exceptions.HTTPError`, `IOError`,
`json.decoder.JSONDecodeError`.  `fuelExhausted` is a modelling artifact
marking that the fuel bound of the pagination loop ran out. -/
inductive PyError where
  | typeError (msg : String)
  | keyError (msg : String)
  | valueError (msg : String)
  | attributeError (msg : String)
  | requestException (msg : String)
  | connectionError (msg : String)
  | rateLimitError (msg : String)
  | httpError (msg : String)
  | ioError (msg : String)
  | jsonDecodeError (msg : String)
  | fuelExhausted
deriving DecidableEq

/-- `True` exactly for string values (`type(x) == str`). -/
def PyValue.isStr : PyValue → Bool
  | .str _ => true
  | _ => false

mutual

/-- Python `repr()` on the modelled values. -/
def pyRepr : PyValue → String
  | .str s => "\x27" ++ s ++ "\x27"
  | .int n => toString n
  | .noneV => "None"
  | .list l => "[" ++ String.intercalate ", " (pyReprList l) ++ "]"

/-- `repr()` mapped over a list of values. -/
def pyReprList : List PyValue → List String
  | [] => []
  | x :: xs => pyRepr x :: pyReprList xs

end

/-- Python `str()` on the modelled values. -/
def pyStr : PyValue → String
  | .str s => s
  | v => pyRepr v

/-! ## The grammar table (util.py, `__regex_map`)

Each compiled pattern is embedded as an executable matcher equivalent to
`re.fullmatch` of the pattern on the whole string. -/

/-- One character of the class `[01]`. -/
def isBit (c : Char) : Bool := c == '0' || c == '1'

/-- `^[01]{3}$` (the `categories` and `purity` patterns). -/
def matchThreeBinary (s : String) : Bool :=
  match s.data with
  | [a, b, c] => isBit a && isBit b && isBit c
  | _ => false

/-- `^(date_added)|(relevance)|(random)|(views)|(favorites)|(toplist)$`
under `re.fullmatch`: exact match of one of the six words. -/
def matchSorting (s : String) : Bool :=
  ["date_added", "relevance", "random", "views", "favorites", "toplist"].contains s

/-- `^(desc)|(asc)$` under `re.fullmatch`. -/
def matchOrder (s : String) : Bool :=
  ["desc", "asc"].contains s

/-- `^(1d)|(3d)|(1w)|(1M)|(3M)|(6M)|(1y)$` under `re.fullmatch`. -/
def matchTopRange (s : String) : Bool :=
  ["1d", "3d", "1w", "1M", "3M", "6M", "1y"].contains s

/-- `[1-9][0-9]*`: a nonempty digit string without a leading zero. -/
def isPosDigits (cs : List Char) : Bool :=
  match cs with
  | [] => false
  | c :: rest => ('1' ≤ c && c ≤ '9') && rest.all Char.isDigit

/-- Split a character list at every occurrence of `sep` (like
`str.split` with an explicit separator: always at least one part). -/
def splitOnChar (sep : Char) : List Char → List (List Char)
  | [] => [[]]
  | c :: cs =>
      let r := splitOnChar sep cs
      if c == sep then [] :: r
      else
        match r with
        | h :: t => (c :: h) :: t
        | [] => [[c]]

/-- `[1-9][0-9]*x[1-9][0-9]*`: a dimension pair; since the digit parts
cannot contain `x`, a full match is exactly one `x` with positive
numbers on both sides. -/
def matchDimension (cs : List Char) : Bool :=
  match splitOnChar 'x' cs with
  | [a, b] => isPosDigits a && isPosDigits b
  | _ => false

/-- `^[1-9][0-9]*x[1-9][0-9]*$` (the `atleast` pattern). -/
def matchAtleast (s : String) : Bool := matchDimension s.data

/-- `^dim(,dim)*$` (the `resolutions` and `ratios` patterns): a
comma-separated nonempty list of dimension pairs; since a dimension
contains no comma, a full match is a split on commas with every part a
dimension. -/
def matchDimensionList (s : String) : Bool :=
  (splitOnChar ',' s.data).all matchDimension

/-- `^[0-9A-F]{6}$` (the `colors` pattern). -/
def matchColors (s : String) : Bool :=
  s.data.length == 6 && s.data.all (fun c => c.isDigit || ('A' ≤ c && c ≤ 'F'))

/-- `^[1-9][0-9]*$` (the `page` pattern). -/
def matchPage (s : String) : Bool := isPosDigits s.data

/-- `^[a-zA-Z0-9]{6}$` (the `seed` pattern). -/
def matchSeed (s : String) : Bool :=
  s.data.length == 6 && s.data.all Char.isAlphanum

/-- `^id:\d+$`: the literal prefix `id:` followed by one or more
digits. -/
def matchIdForm (cs : List Char) : Bool :=
  ['i', 'd', ':'].isPrefixOf cs && !(cs.drop 3).isEmpty && (cs.drop 3).all Char.isDigit

/-- `^like:[a-zA-Z0-9]{6}$`: the literal prefix `like:` followed by
exactly six alphanumeric characters. -/
def matchLikeForm (cs : List Char) : Bool :=
  ['l', 'i', 'k', 'e', ':'].isPrefixOf cs
    && (cs.drop 5).length == 6 && (cs.drop 5).all Char.isAlphanum

/-- Substring occurrence test on character lists. -/
def hasSub (pat : List Char) : List Char → Bool
  | [] => pat.isEmpty
  | c :: cs => pat.isPrefixOf (c :: cs) || hasSub pat cs

/-- The `q` pattern
`(^id:\d+$)|(^like:[a-zA-Z0-9]{6}$)|(^(?!(.*id:.*)|(.*like:.*)).*$)`
under `re.fullmatch`.  In the third alternative `.` does not match a
newline (no `DOTALL` flag), so `.*$` consumes the whole string only
when the string has no newline at all, and the negative lookahead then
excludes any occurrence of `id:` or `like:`. -/
def matchQ (s : String) : Bool :=
  matchIdForm s.data || matchLikeForm s.data
    || (!s.data.contains '\n'
        && !hasSub ['i', 'd', ':'] s.data
        && !hasSub ['l', 'i', 'k', 'e', ':'] s.data)

/-- `__regex_map` from util.py: the per-key grammar table, as a lookup
from key to the embedded matcher of the key's compiled pattern. -/
def regexMap : String → Option (String → Bool)
  | "q" => some matchQ
  | "categories" => some matchThreeBinary
  | "purity" => some matchThreeBinary
  | "sorting" => some matchSorting
  | "order" => some matchOrder
  | "topRange" => some matchTopRange
  | "atleast" => some matchAtleast
  | "resolutions" => some matchDimensionList
  | "ratios" => some matchDimensionList
  | "colors" => some matchColors
  | "page" => some matchPage
  | "seed" => some matchSeed
  | _ => none

/-! ## util.validate_parameter -/

/-- `validate_parameter` from util.py: checks `type(key) == str`, then
`type(value) == str` (each failure a `TypeError`), then looks the key
up in `__regex_map` (`KeyError` if absent), then requires
`re.fullmatch` of the pattern on the value (`ValueError` otherwise),
and on success returns the `(key, value)` pair unchanged. -/
def validate_parameter (key value : PyValue) : Except PyError (String × String) :=
  match key with
  | .str k =>
      match value with
      | .str v =>
          match regexMap k with
          | some m =>
              if m v then Except.ok (k, v)
              else Except.error (PyError.valueError
                ("value for " ++ k ++ " doesn\x27t match the required regular expression"))
          | none => Except.error (PyError.keyError ("invalid parameter \"" ++ k ++ "\""))
      | _ => Except.error (PyError.typeError ("value for " ++ k ++ " must be a str object"))
  | _ => Except.error (PyError.typeError "key must be a str object")

/-! ## util.create_parameter_string -/

/-- A Python for-loop building one list from another, where the body
may raise: the first raise aborts the whole loop. -/
def mapExcept {α β : Type} (f : α → Except PyError β) : List α → Except PyError (List β)
  | [] => Except.ok []
  | x :: xs => do
      let y ← f x
      let ys ← mapExcept f xs
      pure (y :: ys)

/-- One iteration of the loop in `create_parameter_string`: cast the
value to its string form, validate the pair, and produce `k=v`. -/
def paramItem (p : String × PyValue) : Except PyError String := do
  let v := pyStr p.2
  let _ ← validate_parameter (.str p.1) (.str v)
  pure (p.1 ++ "=" ++ v)

/-- `create_parameter_string` from util.py: the empty mapping gives
`""`; otherwise each value is cast to a string and validated, and the
result is `?` followed by the `k=v` pairs joined by `&` in iteration
order. -/
def create_parameter_string (kwargs : List (String × PyValue)) : Except PyError String :=
  match kwargs with
  | [] => Except.ok ""
  | _ => do
      let params ← mapExcept paramItem kwargs
      pure ("?" ++ String.intercalate "&" params)

/-! ## util.purity_list_as_numeric_string -/

/-- The `__purity_map` dictionary local to
`purity_list_as_numeric_string`. -/
def purityMap : String → Option Nat
  | "sfw" => some 100
  | "sketchy" => some 10
  | "nsfw" => some 1
  | _ => none

/-- The summation loop of `purity_list_as_numeric_string`; an unknown
purity word raises `KeyError` (whose message is the `repr` of the
key). -/
def purityNumeric : List String → Except PyError Nat
  | [] => Except.ok 0
  | p :: ps =>
      match purityMap p with
      | some k => do
          let r ← purityNumeric ps
          pure (k + r)
      | none => Except.error (PyError.keyError ("\x27" ++ p ++ "\x27"))

/-- Python `str.zfill` on an unsigned decimal string: left-pad with
`0` to the requested width. -/
def zfill (s : String) (w : Nat) : String :=
  if w ≤ s.length then s
  else String.mk (List.replicate (w - s.length) '0') ++ s

/-- `purity_list_as_numeric_string` from util.py: sum the numeric codes
of the listed purities and render the sum zero-padded to width 3. -/
def purity_list_as_numeric_string (l : List String) : Except PyError String := do
  let n ← purityNumeric l
  pure (zfill (toString n) 3)

/-! ## urllib.parse.quote and util.build_q_string -/

/-- UTF-8 encoding of one character, as the list of its byte values. -/
def utf8Bytes (c : Char) : List Nat :=
  let n := c.toNat
  if n < 128 then [n]
  else if n < 2048 then [192 + n / 64, 128 + n % 64]
  else if n < 65536 then [224 + n / 4096, 128 + (n / 64) % 64, 128 + n % 64]
  else [240 + n / 262144, 128 + (n / 4096) % 64, 128 + (n / 64) % 64, 128 + n % 64]

/-- One uppercase hexadecimal digit. -/
def hexDigit (n : Nat) : Char :=
  if n < 10 then Char.ofNat ('0'.toNat + n) else Char.ofNat ('A'.toNat + n - 10)

/-- Percent-encoding of one byte value, `%XX` with uppercase hex. -/
def percentByte (b : Nat) : List Char :=
  ['%', hexDigit (b / 16), hexDigit (b % 16)]

/-- The characters `urllib.parse.quote` never encodes (letters, digits,
`_`, `.`, `-`, `~`) together with the default `safe` set `/`. -/
def quoteSafe (c : Char) : Bool :=
  c.isAlphanum || c == '_' || c == '.' || c == '-' || c == '~' || c == '/'

/-- `urllib.parse.quote` with its defaults: safe characters pass
through, every other character is UTF-8 encoded and each byte written
as `%XX`. -/
def quote (s : String) : String :=
  String.mk (s.data.map (fun c =>
    if quoteSafe c then [c] else (utf8Bytes c).map percentByte |>.flatten)).flatten

/-- Python whitespace characters stripped by `str.strip()`. -/
def pyIsSpace (c : Char) : Bool :=
  c == ' ' || c == '\t' || c == '\n' || c == '\r'
    || c == Char.ofNat 11 || c == Char.ofNat 12

/-- Python `str.strip()`: drop leading and trailing whitespace. -/
def pyStrip (s : String) : String :=
  String.mk (((s.data.dropWhile pyIsSpace).reverse.dropWhile pyIsSpace).reverse)

/-- The Python expression `' ' in x`: substring test on a string,
membership test on a list, `TypeError` on a non-container. -/
def spaceIn : PyValue → Except PyError Bool
  | .str s => Except.ok (s.data.contains ' ')
  | .list l => Except.ok (l.contains (.str " "))
  | .int _ => Except.error (PyError.typeError "argument of type \x27int\x27 is not iterable")
  | .noneV => Except.error (PyError.typeError "argument of type \x27NoneType\x27 is not iterable")

/-- Values on which `' ' in x` raises `TypeError` (the non-container,
non-string values). -/
def PyValue.notIterable : PyValue → Bool
  | .int _ => true
  | .noneV => true
  | _ => false

/-- One tag of `build_q_string`: the double-quote wrapping of
multi-word tags (`f"\x22{x}\x22" if ' ' in x else x`) followed by
`quote(str(t))`. -/
def encTag (x : PyValue) : Except PyError String := do
  let hs ← spaceIn x
  pure (quote (if hs then "\"" ++ pyStr x ++ "\"" else pyStr x))

/-- The `image_types` list of `build_q_string`. -/
def image_types : List String := ["png", "jpeg", "jpg"]

/-- `build_q_string` from util.py.  Include-tags are wrapped when
multi-word, percent-encoded, and joined with encoded `" +"` separators
(likewise exclude-tags with `" -"`); a truthy username appends
`quote(" @" + username)`; a truthy image type must be in `image_types`
(else `ValueError`) and appends `quote(" type:" + image_type)`; the
concatenation is finally stripped of whitespace. -/
def build_q_string (include_tags exclude_tags : List PyValue)
    (username : Option String) (image_type : Option String) :
    Except PyError String := do
  let s1 ← match include_tags with
    | [] => pure ""
    | _ => do
        let ts ← mapExcept encTag include_tags
        pure (quote " +" ++ String.intercalate (quote " +") ts)
  let s2 ← match exclude_tags with
    | [] => pure ""
    | _ => do
        let ts ← mapExcept encTag exclude_tags
        pure (quote " -" ++ String.intercalate (quote " -") ts)
  let s3 := match username with
    | some u => if u == "" then "" else quote (" @" ++ u)
    | none => ""
  let s4 ← match image_type with
    | some ty =>
        if ty == "" then pure ""
        else if image_types.contains ty then pure (quote (" type:" ++ ty))
        else Except.error (PyError.valueError
          ("invalid type given, must be one of " ++ String.intercalate ":" image_types))
    | none => pure ""
  pure (pyStrip (s1 ++ s2 ++ s3 ++ s4))

/-! ## wallhaven.Wallhaven.__get_endpoint -/

/-- The HTTP response handed back by `requests.Session.get`: its status
code and its body. -/
structure Response where
  status_code : Nat
  content : String

/-- `Wallhaven.__get_endpoint` from wallhaven.py, from the point where
a response has been obtained: the status dispatch, then JSON parsing of
a 200 body.  `parse` embeds `r.json()` (library code): it returns the
parsed structure or the `JSONDecodeError` message. -/
def getEndpoint {α : Type} (parse : String → Except String α) (url : String)
    (r : Response) : Except PyError α :=
  if [400, 404, 422].contains r.status_code then
    Except.error (PyError.requestException ("Bad Request for url " ++ url))
  else if [500, 502, 503].contains r.status_code then
    Except.error (PyError.connectionError ("Server error " ++ toString r.status_code))
  else if r.status_code == 429 then
    Except.error (PyError.rateLimitError "API request speed limit reached")
  else if r.status_code != 200 then
    Except.error (PyError.httpError "something broke")
  else
    match parse r.content with
    | Except.ok j => Except.ok j
    | Except.error e =>
        if r.content != "" then Except.error (PyError.ioError "invalid content returned")
        else Except.error (PyError.jsonDecodeError e)

/-! ## The paginated generators (wallhaven.py) -/

/-- The `meta` record of a search or collection response
(`current_page`, `last_page`, `per_page`, `total`, with `query` and
`seed` defaulting to `None`). -/
structure Meta where
  current_page : Int
  last_page : Int
  per_page : Int
  total : Int
  query : Option String := none
  seed : Option String := none

/-- A deserialized page: the `data` list (payload records of type `α`)
and the `meta` record. -/
structure PageResult (α : Type) where
  data : List α
  meta : Meta

/-- The `while current_page <= last_page` loop shared by
`get_search_pages` and `get_collection_pages`: build the URL from the
caller's kwargs plus `page=current_page`, fetch it, yield
`(wallpapers, meta)`, then continue with `current_page + 1` and the
`last_page` of the metadata just fetched.  `fuel` bounds the number of
iterations (the Python loop has no such bound); a run that exhausts it
ends in the artificial `fuelExhausted` error. -/
def pagesLoop {α : Type} (fetch : String → Except PyError (PageResult α))
    (kwargs : List (String × PyValue)) (base : String) :
    Nat → Int → Int → Except PyError (List (List α × Meta))
  | 0, current, last =>
      if current ≤ last then Except.error PyError.fuelExhausted else Except.ok []
  | Nat.succ f, current, last =>
      if current ≤ last then do
        let ps ← create_parameter_string (kwargs ++ [("page", PyValue.int current)])
        let r ← fetch (base ++ ps)
        let rest ← pagesLoop fetch kwargs base f (current + 1) r.meta.last_page
        pure ((r.data, r.meta) :: rest)
      else Except.ok []

/-- `Wallhaven.get_search_pages`: rejects a `page` keyword argument
with `AttributeError` before any fetch, then drives the pagination loop
from page 1 against the search endpoint. -/
def get_search_pages {α : Type} (kwargs : List (String × PyValue))
    (fetch : String → Except PyError (PageResult α)) (fuel : Nat) :
    Except PyError (List (List α × Meta)) :=
  if (kwargs.map Prod.fst).contains "page" then
    Except.error (PyError.attributeError
      "cannot specify page as keyword argument, page is handled by generator")
  else pagesLoop fetch kwargs "https://wallhaven.cc/api/v1/search" fuel 1 1

/-- `Wallhaven.get_collection_pages`: same `page` rejection and loop,
against the collection endpoint of the given username and collection
id. -/
def get_collection_pages {α : Type} (username : String) (collection_id : Int)
    (kwargs : List (String × PyValue))
    (fetch : String → Except PyError (PageResult α)) (fuel : Nat) :
    Except PyError (List (List α × Meta)) :=
  if (kwargs.map Prod.fst).contains "page" then
    Except.error (PyError.attributeError
      "cannot specify page as keyword argument, page is handled by generator")
  else
    pagesLoop fetch kwargs
      ("https://wallhaven.cc/api/v1/collections/" ++ username ++ "/" ++ toString collection_id)
      fuel 1 1

/-! ## Helper lemmas -/

/-- When the key is in the grammar table and the value matches, the
validator returns the pair unchanged. -/
lemma validate_ok_of_match (k v : String) (m : String → Bool)
    (hk : regexMap k = some m) (hv : m v = true) :
    validate_parameter (.str k) (.str v) = Except.ok (k, v) := by
  simp [validate_parameter, hk, hv]

/-- When the key is in the grammar table but the value does not match,
the validator raises `ValueError`. -/
lemma validate_err_of_mismatch (k v : String) (m : String → Bool)
    (hk : regexMap k = some m) (hv : m v = false) :
    validate_parameter (.str k) (.str v) = Except.error (PyError.valueError
      ("value for " ++ k ++ " doesn\x27t match the required regular expression")) := by
  simp [validate_parameter, hk, hv]

/-! ## Claims -/

/-- C1: for every key in the grammar table and every string value,
`validate_parameter` returns the `(key, value)` pair unchanged when the
value fully matches the key's pattern and raises a `ValueError` when it
does not; in particular `purity=111` is accepted and `purity=1111` is
rejected. -/
theorem C1_validate_parameter_grammar :
    (∀ (k v : String) (m : String → Bool), regexMap k = some m →
      (m v = true → validate_parameter (.str k) (.str v) = Except.ok (k, v)) ∧
      (m v = false → validate_parameter (.str k) (.str v) = Except.error (PyError.valueError
        ("value for " ++ k ++ " doesn\x27t match the required regular expression"))))
    ∧ validate_parameter (.str "purity") (.str "111") = Except.ok ("purity", "111")
    ∧ validate_parameter (.str "purity") (.str "1111") = Except.error (PyError.valueError
        "value for purity doesn\x27t match the required regular expression") := by
  refine ⟨fun k v m hk => ⟨fun hv => validate_ok_of_match k v m hk hv,
    fun hv => validate_err_of_mismatch k v m hk hv⟩, rfl, rfl⟩

/-- Witness for C1: a concrete key of the table with a matching and the
claimed behaviour. -/
theorem C1_validate_parameter_grammar_witness :
    validate_parameter (.str "colors") (.str "A1B2C3") = Except.ok ("colors", "A1B2C3") :=
  (C1_validate_parameter_grammar.1 "colors" "A1B2C3" matchColors rfl).1 rfl

/-- C6: `validate_parameter` raises `TypeError` whenever the key or the
value is not a string, `KeyError` whenever both are strings but the key
is not in the grammar table, and `ValueError` whenever the key is in
the table but the value does not match its pattern; the three error
kinds are mutually distinct.  The function is pure, so every failure is
raised locally with no network interaction. -/
theorem C6_validate_parameter_errors :
    (∀ key value : PyValue, (key.isStr = false ∨ value.isStr = false) →
      ∃ m, validate_parameter key value = Except.error (PyError.typeError m))
    ∧ (∀ k v : String, regexMap k = none →
        validate_parameter (.str k) (.str v) =
          Except.error (PyError.keyError ("invalid parameter \"" ++ k ++ "\"")))
    ∧ (∀ (k v : String) (m : String → Bool), regexMap k = some m → m v = false →
        validate_parameter (.str k) (.str v) = Except.error (PyError.valueError
          ("value for " ++ k ++ " doesn\x27t match the required regular expression")))
    ∧ (∀ a b c : String, PyError.typeError a ≠ PyError.keyError b ∧
        PyError.typeError a ≠ PyError.valueError c ∧
        PyError.keyError b ≠ PyError.valueError c) := by
  refine ⟨?_, ?_, fun k v m hk hv => validate_err_of_mismatch k v m hk hv, ?_⟩
  · intro key value h
    cases key with
    | str k =>
        cases value with
        | str v => simp [PyValue.isStr] at h
        | int n => exact ⟨_, rfl⟩
        | noneV => exact ⟨_, rfl⟩
        | list l => exact ⟨_, rfl⟩
    | int n => exact ⟨_, rfl⟩
    | noneV => exact ⟨_, rfl⟩
    | list l => exact ⟨_, rfl⟩
  · intro k v hk
    simp [validate_parameter, hk]
  · intro a b c
    refine ⟨fun h => ?_, fun h => ?_, fun h => ?_⟩ <;> cases h

/-- Witness for C6: concrete instances of the three failure kinds. -/
theorem C6_validate_parameter_errors_witness :
    (∃ m, validate_parameter (.int 1) (.str "111") = Except.error (PyError.typeError m))
    ∧ validate_parameter (.str "invalid") (.str "a") =
        Except.error (PyError.keyError "invalid parameter \"invalid\"")
    ∧ validate_parameter (.str "order") (.str "dsc") = Except.error (PyError.valueError
        "value for order doesn\x27t match the required regular expression") :=
  ⟨C6_validate_parameter_errors.1 (.int 1) (.str "111") (Or.inl rfl),
   C6_validate_parameter_errors.2.1 "invalid" "a" rfl,
   C6_validate_parameter_errors.2.2.1 "order" "dsc" matchOrder rfl rfl⟩

/-- When every pair of the mapping validates, the parameter loop
produces the `k=v` items in iteration order. -/
lemma mapM_paramItem_ok (l : List (String × PyValue))
    (h : ∀ p ∈ l, ∃ u, validate_parameter (.str p.1) (.str (pyStr p.2)) = Except.ok u) :
    mapExcept paramItem l = Except.ok (l.map (fun p => p.1 ++ "=" ++ pyStr p.2)) := by
  induction l with
  | nil => rfl
  | cons a t ih =>
      obtain ⟨u, hu⟩ := h a (List.mem_cons_self a t)
      have ht := ih (fun p hp => h p (List.mem_cons_of_mem _ hp))
      simp [mapExcept, paramItem, hu, ht]
      rfl

/-- C5: `create_parameter_string` of the empty mapping is the empty
string; of a non-empty mapping whose (stringified) pairs all validate
it is `?` followed by the `k=v` pairs joined by `&` in iteration
order; for `{purity: 111, page: 4}` the result starts with `?`, has
exactly one `&`, and contains `purity=111` and `page=4` as
substrings. -/
theorem C5_create_parameter_string_spec :
    create_parameter_string [] = Except.ok ""
    ∧ (∀ kwargs : List (String × PyValue), kwargs ≠ [] →
        (∀ p ∈ kwargs, ∃ u, validate_parameter (.str p.1) (.str (pyStr p.2)) = Except.ok u) →
        create_parameter_string kwargs = Except.ok
          ("?" ++ String.intercalate "&" (kwargs.map (fun p => p.1 ++ "=" ++ pyStr p.2))))
    ∧ (∃ s, create_parameter_string [("purity", PyValue.int 111), ("page", PyValue.int 4)] =
          Except.ok s
        ∧ s.data.head? = some '?'
        ∧ (s.data.filter (fun c => c == '&')).length = 1
        ∧ hasSub "purity=111".data s.data = true
        ∧ hasSub "page=4".data s.data = true) := by
  refine ⟨rfl, ?_, "?purity=111&page=4", rfl, rfl, rfl, rfl, rfl⟩
  intro kwargs hne h
  match kwargs, hne with
  | p :: t, _ =>
      simp [create_parameter_string, mapM_paramItem_ok (p :: t) h]

/-- Witness for C5: the general clause at a concrete one-entry
mapping. -/
theorem C5_create_parameter_string_spec_witness :
    create_parameter_string [("order", PyValue.str "asc")] = Except.ok "?order=asc" :=
  C5_create_parameter_string_spec.2.1 [("order", PyValue.str "asc")] (by simp)
    (fun p hp => by
      rw [List.mem_singleton] at hp
      subst hp
      exact ⟨("order", "asc"), rfl⟩)

/-- On a duplicate-free list of purity words the summation loop yields
100 for `sfw`, 10 for `sketchy` and 1 for `nsfw`, each counted once. -/
lemma purityNumeric_nodup (l : List String) (hnd : l.Nodup)
    (hsub : ∀ x ∈ l, x = "sfw" ∨ x = "sketchy" ∨ x = "nsfw") :
    purityNumeric l = Except.ok
      ((if "sfw" ∈ l then 100 else 0) + (if "sketchy" ∈ l then 10 else 0)
        + (if "nsfw" ∈ l then 1 else 0)) := by
  induction l with
  | nil => simp [purityNumeric]
  | cons a t ih =>
      obtain ⟨ha, hndt⟩ := List.nodup_cons.mp hnd
      have ht := ih hndt (fun x hx => hsub x (List.mem_cons_of_mem _ hx))
      rcases hsub a (List.mem_cons_self a t) with h | h | h <;> subst h <;>
        simp [purityNumeric, purityMap, ht, List.mem_cons, ha] <;> omega

/-- C9: on any duplicate-free list over `{sfw, sketchy, nsfw}`,
`purity_list_as_numeric_string` returns a three-character string over
`0`/`1` with `sfw` deciding the first position, `sketchy` the second
and `nsfw` the third, and `validate_parameter` accepts that string
under the key `purity`. -/
theorem C9_purity_list_numeric (l : List String) (hnd : l.Nodup)
    (hsub : ∀ x ∈ l, x = "sfw" ∨ x = "sketchy" ∨ x = "nsfw") :
    purity_list_as_numeric_string l = Except.ok (String.mk
      [if "sfw" ∈ l then '1' else '0', if "sketchy" ∈ l then '1' else '0',
       if "nsfw" ∈ l then '1' else '0'])
    ∧ validate_parameter (.str "purity") (.str (String.mk
      [if "sfw" ∈ l then '1' else '0', if "sketchy" ∈ l then '1' else '0',
       if "nsfw" ∈ l then '1' else '0'])) = Except.ok ("purity", String.mk
      [if "sfw" ∈ l then '1' else '0', if "sketchy" ∈ l then '1' else '0',
       if "nsfw" ∈ l then '1' else '0']) := by
  have h := purityNumeric_nodup l hnd hsub
  by_cases h1 : "sfw" ∈ l <;> by_cases h2 : "sketchy" ∈ l <;> by_cases h3 : "nsfw" ∈ l <;>
    simp only [h1, h2, h3, if_true, if_false] <;>
    exact ⟨by simp [purity_list_as_numeric_string, h, h1, h2, h3]; rfl,
      validate_ok_of_match _ _ matchThreeBinary rfl rfl⟩

/-- Witness for C9: the concrete list `[nsfw, sfw]` produces `101` and
it validates. -/
theorem C9_purity_list_numeric_witness :
    purity_list_as_numeric_string ["nsfw", "sfw"] = Except.ok "101"
    ∧ validate_parameter (.str "purity") (.str "101") = Except.ok ("purity", "101") := by
  have h := C9_purity_list_numeric ["nsfw", "sfw"] (by simp) (by simp)
  simpa using h

/-- C3: the endpoint fetcher maps each HTTP outcome to a distinct
error: 400/404/422 to `RequestException` (bad request), 500/502/503 to
`ConnectionError` (transport layer, distinct from the rate-limit
error), 429 — the status handed back once the adapter's retries are
exhausted — to `RateLimitError`, any other non-200 status to
`HTTPError`; a 200 response with an unparsable body raises `IOError`
when the body is non-empty and propagates the `JSONDecodeError` itself
when the body is empty; a 200 response with a parsable body is
returned unexamined. -/
theorem C3_get_endpoint_outcomes (α : Type) (parse : String → Except String α)
    (url : String) (r : Response) :
    (r.status_code ∈ [400, 404, 422] →
      getEndpoint parse url r =
        Except.error (PyError.requestException ("Bad Request for url " ++ url)))
    ∧ (r.status_code ∈ [500, 502, 503] →
        getEndpoint parse url r =
          Except.error (PyError.connectionError ("Server error " ++ toString r.status_code)))
    ∧ (r.status_code = 429 →
        getEndpoint parse url r =
          Except.error (PyError.rateLimitError "API request speed limit reached"))
    ∧ (r.status_code ∉ [400, 404, 422, 500, 502, 503, 429, 200] →
        getEndpoint parse url r = Except.error (PyError.httpError "something broke"))
    ∧ (∀ j, r.status_code = 200 → parse r.content = Except.ok j →
        getEndpoint parse url r = Except.ok j)
    ∧ (∀ e, r.status_code = 200 → parse r.content = Except.error e → r.content ≠ "" →
        getEndpoint parse url r = Except.error (PyError.ioError "invalid content returned"))
    ∧ (∀ e, r.status_code = 200 → parse r.content = Except.error e → r.content = "" →
        getEndpoint parse url r = Except.error (PyError.jsonDecodeError e))
    ∧ (∀ m m', PyError.connectionError m ≠ PyError.rateLimitError m') := by
  obtain ⟨code, body⟩ := r
  refine ⟨?_, ?_, ?_, ?_, ?_, ?_, ?_, fun m m' h => by cases h⟩
  · intro h
    simp only [List.mem_cons, List.not_mem_nil, or_false] at h
    rcases h with rfl | rfl | rfl <;> rfl
  · intro h
    simp only [List.mem_cons, List.not_mem_nil, or_false] at h
    rcases h with rfl | rfl | rfl <;> rfl
  · rintro rfl
    rfl
  · intro h
    simp only [List.mem_cons, List.not_mem_nil, or_false, not_or] at h
    obtain ⟨h1, h2, h3, h4, h5, h6, h7, h8⟩ := h
    simp [getEndpoint, h1, h2, h3, h4, h5, h6, h7, h8]
  · rintro j rfl hp
    simp [getEndpoint, hp]
  · rintro e rfl hp hb
    simp [getEndpoint, hp, hb]
  · rintro e rfl hp hb
    simp only at hb
    subst hb
    simp [getEndpoint, hp]

/-- Witness for C3: concrete responses exercising the rate-limit and
empty-body branches. -/
theorem C3_get_endpoint_outcomes_witness :
    getEndpoint (α := Nat) (fun _ => Except.error "Expecting value") "u" ⟨429, ""⟩ =
      Except.error (PyError.rateLimitError "API request speed limit reached")
    ∧ getEndpoint (α := Nat) (fun _ => Except.error "Expecting value") "u" ⟨200, ""⟩ =
        Except.error (PyError.jsonDecodeError "Expecting value") :=
  ⟨(C3_get_endpoint_outcomes Nat (fun _ => Except.error "Expecting value") "u"
      ⟨429, ""⟩).2.2.1 rfl,
   (C3_get_endpoint_outcomes Nat (fun _ => Except.error "Expecting value") "u"
      ⟨200, ""⟩).2.2.2.2.2.2.1 "Expecting value" rfl rfl rfl⟩

/-- Reduction of `Except` bind at a success value. -/
lemma bind_ok_eq {ε β γ : Type} (x : β) (f : β → Except ε γ) :
    (Bind.bind (Except.ok x) f : Except ε γ) = f x := rfl

/-- The pagination loop stops as soon as the page counter exceeds the
reported last page, independent of remaining fuel. -/
lemma pagesLoop_stop {α : Type} (fetch : String → Except PyError (PageResult α))
    (kwargs : List (String × PyValue)) (base : String) (f : Nat) (current last : Int)
    (h : last < current) :
    pagesLoop fetch kwargs base f current last = Except.ok [] := by
  cases f <;> simp [pagesLoop, not_le.mpr h]

/-- With every fetched metadata reporting `last_page = 3`, the loop
starting at page 1 with fuel at least 3 yields exactly the pages 1, 2
and 3, fetched on demand with `page=1`, `page=2`, `page=3` in the
query string. -/
lemma pagesLoop_three {α : Type} (fetch : String → Except PyError (PageResult α))
    (base : String)
    (h : ∀ u, ∃ r : PageResult α, fetch u = Except.ok r ∧ r.meta.last_page = 3)
    (fuel : Nat) (hf : 3 ≤ fuel) :
    ∃ l, pagesLoop fetch [] base fuel 1 1 = Except.ok l ∧ l.length = 3 := by
  obtain ⟨k, rfl⟩ : ∃ k, fuel = k + 2 + 1 := ⟨fuel - 3, by omega⟩
  obtain ⟨r1, h1, hl1⟩ := h (base ++ "?page=1")
  obtain ⟨r2, h2, hl2⟩ := h (base ++ "?page=2")
  obtain ⟨r3, h3, hl3⟩ := h (base ++ "?page=3")
  refine ⟨[(r1.data, r1.meta), (r2.data, r2.meta), (r3.data, r3.meta)], ?_, rfl⟩
  have e1 : create_parameter_string [("page", PyValue.int 1)] = Except.ok "?page=1" := rfl
  have e2 : create_parameter_string [("page", PyValue.int 2)] = Except.ok "?page=2" := rfl
  have e3 : create_parameter_string [("page", PyValue.int 3)] = Except.ok "?page=3" := rfl
  have hstop := pagesLoop_stop fetch [] base k 4 3 (by omega)
  simp [pagesLoop, e1, e2, e3, h1, h2, h3, hl1, hl2, hl3, bind_ok_eq, hstop]

/-- C4: the paginated generators advance a page counter from 1 in
steps of 1, fetch each page on demand, and stop exactly when the
counter exceeds the `last_page` of the most recently fetched metadata;
when every fetched page reports `last_page = 3` they yield exactly 3
`(wallpapers, meta)` pairs.  `fuel` bounds the loop (3 iterations
suffice here, any larger bound gives the same result). -/
theorem C4_pagination_three_pages (α : Type)
    (fetch : String → Except PyError (PageResult α))
    (h : ∀ u, ∃ r : PageResult α, fetch u = Except.ok r ∧ r.meta.last_page = 3)
    (fuel : Nat) (hf : 3 ≤ fuel) :
    (∃ l, get_search_pages [] fetch fuel = Except.ok l ∧ l.length = 3)
    ∧ (∀ (un : String) (cid : Int),
        ∃ l, get_collection_pages un cid [] fetch fuel = Except.ok l ∧ l.length = 3) := by
  constructor
  · simpa [get_search_pages] using
      pagesLoop_three fetch "https://wallhaven.cc/api/v1/search" h fuel hf
  · intro un cid
    simpa [get_collection_pages] using
      pagesLoop_three fetch
        ("https://wallhaven.cc/api/v1/collections/" ++ un ++ "/" ++ toString cid) h fuel hf

/-- A response sequence whose every page reports `last_page = 3`. -/
def constFetch : String → Except PyError (PageResult Nat) :=
  fun _ => Except.ok ⟨[7], ⟨1, 3, 24, 72, none, none⟩⟩

/-- Witness for C4: the constant three-page sequence yields exactly 3
pairs from both generators. -/
theorem C4_pagination_three_pages_witness :
    (∃ l, get_search_pages [] constFetch 3 = Except.ok l ∧ l.length = 3)
    ∧ (∃ l, get_collection_pages "test_user" 1234 [] constFetch 3 = Except.ok l ∧ l.length = 3) :=
  ⟨(C4_pagination_three_pages Nat constFetch (fun _ => ⟨_, rfl, rfl⟩) 3 (by omega)).1,
   (C4_pagination_three_pages Nat constFetch (fun _ => ⟨_, rfl, rfl⟩) 3
      (by omega)).2 "test_user" 1234⟩

/-- C7: whenever the keyword mapping contains the key `page`, both
generator-driven accessors fail with `AttributeError`; the result is
the same for every `fetch`, so no fetch is issued. -/
theorem C7_page_kwarg_rejected (α : Type) (kwargs : List (String × PyValue))
    (fetch : String → Except PyError (PageResult α)) (fuel : Nat)
    (h : (kwargs.map Prod.fst).contains "page" = true) :
    get_search_pages kwargs fetch fuel = Except.error (PyError.attributeError
      "cannot specify page as keyword argument, page is handled by generator")
    ∧ ∀ (un : String) (cid : Int),
        get_collection_pages un cid kwargs fetch fuel = Except.error (PyError.attributeError
          "cannot specify page as keyword argument, page is handled by generator") := by
  refine ⟨?_, fun un cid => ?_⟩
  · simp only [get_search_pages, h, if_true]
  · simp only [get_collection_pages, h, if_true]

/-- Witness for C7: a concrete mapping containing `page` is rejected. -/
theorem C7_page_kwarg_rejected_witness :
    get_search_pages [("page", PyValue.int 2)] constFetch 3 = Except.error (PyError.attributeError
      "cannot specify page as keyword argument, page is handled by generator") :=
  (C7_page_kwarg_rejected Nat [("page", PyValue.int 2)] constFetch 3 rfl).1

/-! ## C2: the build_q_string example input -/

/-- C2 (code bug): on the input of the repository's own test
`TestBuildQString.test_valid` — which asserts the literal result
`%20%2Btrees%20%2Bgreen%20%2Btwo+words%20%2B1%20-spruce @test_user type:png` —
`build_q_string` instead raises `TypeError`: the multi-word check
`' ' in x` is evaluated on the integer tag `1` before any
stringification, and the `except TypeError` handler re-raises. -/
theorem C2_build_q_string_test_input :
    build_q_string [.str "trees", .str "green", .str "two words", .int 1]
      [.str "spruce"] (some "test_user") (some "png")
      = Except.error (PyError.typeError "argument of type \x27int\x27 is not iterable") := rfl

/-! ## C8: build_q_string error behaviour -/

/-- Reduction of `Except` bind at an error value. -/
lemma bind_error_eq {ε β γ : Type} (e : ε) (f : β → Except ε γ) :
    (Bind.bind (Except.error e) f : Except ε γ) = Except.error e := rfl

/-- Encoding a tag succeeds on every container or string value. -/
lemma encTag_ok (x : PyValue) (h : x.notIterable = false) : ∃ s, encTag x = Except.ok s := by
  cases x with
  | str s => exact ⟨_, rfl⟩
  | list l => exact ⟨_, rfl⟩
  | int n => simp [PyValue.notIterable] at h
  | noneV => simp [PyValue.notIterable] at h

/-- A tag list containing a non-iterable element makes the tag loop
raise `TypeError`. -/
lemma mapExcept_encTag_error (l : List PyValue) (h : ∃ x ∈ l, x.notIterable = true) :
    ∃ m, mapExcept encTag l = Except.error (PyError.typeError m) := by
  induction l with
  | nil => simp at h
  | cons a t ih =>
      by_cases ha : a.notIterable = true
      · cases a with
        | int n => exact ⟨_, rfl⟩
        | noneV => exact ⟨_, rfl⟩
        | str s => simp [PyValue.notIterable] at ha
        | list m => simp [PyValue.notIterable] at ha
      · have hx : ∃ x ∈ t, PyValue.notIterable x = true := by
          obtain ⟨x, hxl, hxn⟩ := h
          rcases List.mem_cons.mp hxl with rfl | hxt
          · exact absurd hxn ha
          · exact ⟨x, hxt, hxn⟩
        obtain ⟨m, hm⟩ := ih hx
        obtain ⟨s, hs⟩ := encTag_ok a (by simpa using ha)
        exact ⟨m, by simp [mapExcept, hs, hm, bind_ok_eq]⟩

/-- A tag list with no non-iterable element is encoded without
error. -/
lemma mapExcept_encTag_ok (l : List PyValue) (h : ∀ x ∈ l, x.notIterable = false) :
    ∃ ts, mapExcept encTag l = Except.ok ts := by
  induction l with
  | nil => exact ⟨[], rfl⟩
  | cons a t ih =>
      obtain ⟨ts, hts⟩ := ih (fun x hx => h x (List.mem_cons_of_mem _ hx))
      obtain ⟨s, hs⟩ := encTag_ok a (h a (List.mem_cons_self a t))
      exact ⟨s :: ts, by simp [mapExcept, hs, hts, bind_ok_eq]⟩

/-- String values are iterable. -/
lemma isStr_notIterable (x : PyValue) (h : x.isStr = true) : x.notIterable = false := by
  cases x <;> simp_all [PyValue.isStr, PyValue.notIterable]

/-- C8 counterexample: the claim "fails with a type error whenever an
element of include_tags or exclude_tags is not textual" is false — the
non-textual element `[]` (an empty Python list) is accepted: `' ' in x`
succeeds on a container, the element is stringified to `[]` and
percent-encoded, and `build_q_string` returns normally. -/
theorem C8_build_q_string_counterexample :
    build_q_string [PyValue.list []] [] none none = Except.ok "%20%2B%5B%5D"
    ∧ (PyValue.list []).isStr = false := ⟨rfl, rfl⟩

/-- C8 (amended): `build_q_string` fails with `ValueError` when a
truthy image type outside `png`/`jpeg`/`jpg` is given (and raises no
error on the image type's account when it is one of the three), and
fails with `TypeError` when an element of `include_tags` or
`exclude_tags` is a non-iterable value (an int or `None`); container
elements such as lists are stringified without error. -/
theorem C8_build_q_string_errors :
    (∀ (it et : List PyValue) (u ty : Option String), (∃ x ∈ it, x.notIterable = true) →
      ∃ m, build_q_string it et u ty = Except.error (PyError.typeError m))
    ∧ (∀ (it et : List PyValue) (u ty : Option String), (∀ x ∈ it, x.isStr = true) →
        (∃ x ∈ et, x.notIterable = true) →
        ∃ m, build_q_string it et u ty = Except.error (PyError.typeError m))
    ∧ (∀ (it et : List PyValue) (u : Option String) (ty : String),
        (∀ x ∈ it, x.isStr = true) → (∀ x ∈ et, x.isStr = true) →
        ty ≠ "" → image_types.contains ty = false →
        build_q_string it et u (some ty) = Except.error (PyError.valueError
          ("invalid type given, must be one of " ++ String.intercalate ":" image_types)))
    ∧ (∀ (it et : List PyValue) (u : Option String) (ty : String),
        (∀ x ∈ it, x.isStr = true) → (∀ x ∈ et, x.isStr = true) →
        image_types.contains ty = true →
        ∃ s, build_q_string it et u (some ty) = Except.ok s) := by
  refine ⟨?_, ?_, ?_, ?_⟩
  · intro it et u ty h
    obtain ⟨m, hm⟩ := mapExcept_encTag_error it h
    match it, h with
    | a :: t, _ => exact ⟨m, by simp [build_q_string, hm, bind_error_eq]⟩
  · intro it et u ty hit h
    obtain ⟨ts, hts⟩ := mapExcept_encTag_ok it (fun x hx => isStr_notIterable x (hit x hx))
    obtain ⟨m, hm⟩ := mapExcept_encTag_error et h
    match et, h with
    | a :: t, _ =>
        cases it with
        | nil => exact ⟨m, by simp [build_q_string, hm, bind_error_eq]⟩
        | cons b tb => exact ⟨m, by simp [build_q_string, hts, hm, bind_ok_eq, bind_error_eq]⟩
  · intro it et u ty hit het hne hcon
    obtain ⟨ts1, h1⟩ := mapExcept_encTag_ok it (fun x hx => isStr_notIterable x (hit x hx))
    obtain ⟨ts2, h2⟩ := mapExcept_encTag_ok et (fun x hx => isStr_notIterable x (het x hx))
    have hbe : (ty == "") = false := by simpa using hne
    have hmem : ty ∉ image_types := by simpa using hcon
    cases it <;> cases et <;>
      simp [build_q_string, h1, h2, bind_ok_eq, hbe, hmem]
  · intro it et u ty hit het hcon
    obtain ⟨ts1, h1⟩ := mapExcept_encTag_ok it (fun x hx => isStr_notIterable x (hit x hx))
    obtain ⟨ts2, h2⟩ := mapExcept_encTag_ok et (fun x hx => isStr_notIterable x (het x hx))
    have hmem : ty ∈ image_types := by simpa using hcon
    have hne : (ty == "") = false := by fin_cases hmem <;> rfl
    cases it <;> cases et <;>
      exact ⟨_, by simp [build_q_string, h1, h2, bind_ok_eq, hne, hmem]; rfl⟩

/-- Witness for C8: concrete instances — a non-iterable include tag
raises `TypeError`, an invalid image type raises `ValueError`, a valid
one succeeds. -/
theorem C8_build_q_string_errors_witness :
    (∃ m, build_q_string [PyValue.int 1] [] none none =
      Except.error (PyError.typeError m))
    ∧ build_q_string [] [] none (some "gif") = Except.error (PyError.valueError
        ("invalid type given, must be one of " ++ String.intercalate ":" image_types))
    ∧ (∃ s, build_q_string [] [] none (some "png") = Except.ok s) :=
  ⟨C8_build_q_string_errors.1 [PyValue.int 1] [] none none
     ⟨PyValue.int 1, List.mem_singleton.mpr rfl, rfl⟩,
   C8_build_q_string_errors.2.2.1 [] [] none "gif" (fun x hx => by cases hx)
     (fun x hx => by cases hx) (by simp) rfl,
   C8_build_q_string_errors.2.2.2 [] [] none "png" (fun x hx => by cases hx)
     (fun x hx => by cases hx) rfl⟩

/-! ## C10: the accepted language of the q grammar -/

/-- `hasSub` decides substring occurrence. -/
lemma hasSub_iff (pat l : List Char) : hasSub pat l = true ↔ List.IsInfix pat l := by
  induction l with
  | nil => simp [hasSub, List.isEmpty_iff]
  | cons c cs ih =>
      simp [hasSub, List.infix_cons_iff, List.isPrefixOf_iff_prefix, ih]

/-- `matchIdForm` decides the language `id:` followed by one or more
digits. -/
lemma matchIdForm_iff (cs : List Char) :
    matchIdForm cs = true ↔
      ∃ ds : List Char, ds ≠ [] ∧ (∀ c ∈ ds, c.isDigit = true) ∧
        cs = 'i' :: 'd' :: ':' :: ds := by
  constructor
  · intro h
    simp only [matchIdForm, Bool.and_eq_true, List.isPrefixOf_iff_prefix, Bool.not_eq_true',
      List.isEmpty_eq_false, List.all_eq_true] at h
    obtain ⟨⟨hp, hne⟩, hall⟩ := h
    obtain ⟨t, rfl⟩ := hp
    exact ⟨t, by simpa using hne, by simpa using hall, rfl⟩
  · rintro ⟨ds, hne, hall, rfl⟩
    simp only [matchIdForm, Bool.and_eq_true, List.isPrefixOf_iff_prefix, Bool.not_eq_true',
      List.isEmpty_eq_false, List.all_eq_true]
    exact ⟨⟨⟨ds, rfl⟩, by simpa using hne⟩, by simpa using hall⟩

/-- `matchLikeForm` decides the language `like:` followed by exactly
six alphanumerics. -/
lemma matchLikeForm_iff (cs : List Char) :
    matchLikeForm cs = true ↔
      ∃ ds : List Char, ds.length = 6 ∧ (∀ c ∈ ds, c.isAlphanum = true) ∧
        cs = 'l' :: 'i' :: 'k' :: 'e' :: ':' :: ds := by
  constructor
  · intro h
    simp only [matchLikeForm, Bool.and_eq_true, List.isPrefixOf_iff_prefix, beq_iff_eq,
      List.all_eq_true] at h
    obtain ⟨⟨hp, hlen⟩, hall⟩ := h
    obtain ⟨t, rfl⟩ := hp
    exact ⟨t, by simpa using hlen, by simpa using hall, rfl⟩
  · rintro ⟨ds, hlen, hall, rfl⟩
    simp only [matchLikeForm, Bool.and_eq_true, List.isPrefixOf_iff_prefix, beq_iff_eq,
      List.all_eq_true]
    exact ⟨⟨⟨ds, rfl⟩, by simpa using hlen⟩, by simpa using hall⟩

/-- A boolean `contains` that is false is exactly non-membership. -/
lemma contains_false_iff (l : List Char) (c : Char) : l.contains c = false ↔ c ∉ l := by
  simp

/-- A boolean `hasSub` that is false is exactly non-occurrence. -/
lemma hasSub_false_iff (pat l : List Char) : hasSub pat l = false ↔ ¬ List.IsInfix pat l := by
  rw [← hasSub_iff]
  cases hasSub pat l <;> simp

/-- The language of the `q` pattern. -/
lemma matchQ_iff (s : String) :
    matchQ s = true ↔
      ((∃ ds : List Char, ds ≠ [] ∧ (∀ c ∈ ds, c.isDigit = true) ∧
          s.data = 'i' :: 'd' :: ':' :: ds)
       ∨ (∃ ds : List Char, ds.length = 6 ∧ (∀ c ∈ ds, c.isAlphanum = true) ∧
          s.data = 'l' :: 'i' :: 'k' :: 'e' :: ':' :: ds)
       ∨ ('\n' ∉ s.data ∧ ¬ List.IsInfix ['i', 'd', ':'] s.data
          ∧ ¬ List.IsInfix ['l', 'i', 'k', 'e', ':'] s.data)) := by
  simp only [matchQ, Bool.or_eq_true, Bool.and_eq_true, Bool.not_eq_true',
    matchIdForm_iff, matchLikeForm_iff, contains_false_iff, hasSub_false_iff,
    or_assoc, and_assoc]

/-- C10 counterexample: the claim that any string containing neither
`id:` nor `like:` is accepted under the key `q` is false — `a\nb`
contains neither substring, yet the validator rejects it, because `.`
in the third alternative of the pattern does not match a newline. -/
theorem C10_q_grammar_counterexample :
    validate_parameter (.str "q") (.str "a\nb") = Except.error (PyError.valueError
      "value for q doesn\x27t match the required regular expression")
    ∧ hasSub ['i', 'd', ':'] "a\nb".data = false
    ∧ hasSub ['l', 'i', 'k', 'e', ':'] "a\nb".data = false := ⟨rfl, rfl, rfl⟩

/-- C10 (amended): under the key `q` the validator accepts exactly:
`id:` followed by one or more digits, `like:` followed by exactly six
alphanumerics, or any string that contains no newline and neither the
substring `id:` nor the substring `like:`. -/
theorem C10_q_grammar_amended (s : String) :
    validate_parameter (.str "q") (.str s) = Except.ok ("q", s) ↔
      ((∃ ds : List Char, ds ≠ [] ∧ (∀ c ∈ ds, c.isDigit = true) ∧
          s.data = 'i' :: 'd' :: ':' :: ds)
       ∨ (∃ ds : List Char, ds.length = 6 ∧ (∀ c ∈ ds, c.isAlphanum = true) ∧
          s.data = 'l' :: 'i' :: 'k' :: 'e' :: ':' :: ds)
       ∨ ('\n' ∉ s.data ∧ ¬ List.IsInfix ['i', 'd', ':'] s.data
          ∧ ¬ List.IsInfix ['l', 'i', 'k', 'e', ':'] s.data)) := by
  rw [← matchQ_iff]
  constructor
  · intro h
    by_cases hm : matchQ s = true
    · exact hm
    · rw [validate_err_of_mismatch "q" s matchQ rfl (by simpa using hm)] at h
      cases h
  · intro hm
    exact validate_ok_of_match "q" s matchQ rfl hm

/-- Witness for C10: the id form at a concrete query. -/
theorem C10_q_grammar_amended_witness :
    validate_parameter (.str "q") (.str "id:54") = Except.ok ("q", "id:54") :=
  (C10_q_grammar_amended "id:54").mpr (Or.inl ⟨['5', '4'], by simp, by simp, rfl⟩)

end Pywallhaven
